import Mathlib

/-!
Verification of the vida short-video pipeline: a shallow embedding of the
video data model, the upload handler, the transcode worker, the video CRUD
read paths, the Elasticsearch sync service and the search fallback, with
theorems settling the specification claims about them.
-/

deriving instance DecidableEq for Except

namespace Vida

/-- Video row, following the columns of `Video` in src/app/models/video.py.
Counters default to 0, `status` defaults to "pending", nullable columns are
`Option`; `created_at` is a timestamp set at record creation. -/
structure Video where
  id : Nat
  author_id : Nat
  title : String
  description : Option String := none
  play_url : Option String := none
  cover_url : Option String := none
  duration : Option Nat := some 0
  file_size : Option Nat := some 0
  file_format : Option String := none
  width : Option Nat := none
  height : Option Nat := none
  status : String := "pending"
  view_count : Nat := 0
  favorite_count : Nat := 0
  comment_count : Nat := 0
  publish_time : Option Int := none
  created_at : Int := 0
  deriving Repr, DecidableEq

/-- Hot-score formula, from `calculate_hot_score` in
src/app/infra/elasticsearch/sync_service.py (lines 16-30); the Python float
arithmetic is embedded over the rationals. -/
def calculate_hot_score (view_count favorite_count comment_count : ℚ) : ℚ :=
  (view_count * 0.5 + favorite_count * 2.0 + comment_count * 1.5) / 1000

/-- Test whether the pattern list matches at the head of the first list. -/
def matchesAt : List Char → List Char → Bool
  | _, [] => true
  | [], _ :: _ => false
  | h :: hs, q :: qs => (h == q) && matchesAt hs qs

/-- Test whether the second list occurs as a contiguous sublist of the first. -/
def hasSubList : List Char → List Char → Bool
  | [], q => matchesAt [] q
  | h :: t, q => matchesAt (h :: t) q || hasSubList t q

/-- Case-insensitive substring test, embedding the SQL `ILIKE '%q%'` pattern
used by the CRUD and the search fallback. -/
def contains_ci (hay q : String) : Bool :=
  hasSubList (hay.data.map Char.toLower) (q.data.map Char.toLower)

/-- Sort a list by a boolean order relation; insertion sort embeds the SQL
`ORDER BY` clauses. -/
def sort_by {α : Type} (le : α → α → Bool) (l : List α) : List α :=
  List.insertionSort (fun a b => le a b = true) l

/-- Case-insensitive substring test against a nullable column: SQL `ILIKE`
on a NULL value is not true. -/
def contains_ci_opt (hay : Option String) (q : String) : Bool :=
  match hay with
  | some h => contains_ci h q
  | none => false

/-! ## Upload handler (src/app/api/video.py, `upload_video`) -/

/-- Allowed upload extensions (src/app/api/video.py line 103). -/
def allowed_formats : List String := ["mp4", "avi", "mov", "mkv", "flv", "webm"]

/-- Maximum upload size in bytes (src/app/api/video.py line 109). -/
def MAX_UPLOAD_SIZE : Nat := 500 * 1024 * 1024

/-- Extension extraction: `filename.split(".")[-1].lower()` with empty
filename giving the empty string (src/app/api/video.py line 104); the
characters after the last dot, lowercased, written over the character list
so that it evaluates. -/
def file_ext (filename : String) : String :=
  String.mk (((filename.data.reverse.takeWhile (fun c => c != '.')).reverse).map
    Char.toLower)

/-- Transcode job message, the fields of `TranscodeTaskMessage` relevant to
the pipeline state (src/app/infra/kafka/kafka_service.py lines 14-58). -/
structure TranscodeMsg where
  task_id : Nat
  video_id : Nat
  raw_file_path : String
  user_id : Nat
  deriving Repr, DecidableEq

/-- Pipeline state visible to the upload handler: the raw object bucket, the
video table, and the transcode queue. -/
structure PipelineState where
  raw_objects : List String := []
  videos : List Video := []
  queue : List TranscodeMsg := []
  deriving Repr, DecidableEq

/-- Upload request: the multipart file (its name and payload size) plus
title/description form fields. -/
structure UploadRequest where
  filename : String
  size : Nat
  title : String
  description : Option String := none
  deriving Repr, DecidableEq

/-- Data returned by the upload endpoint (src/app/api/video.py lines 174-184). -/
structure UploadResponse where
  video_id : Nat
  object_name : String
  status : String
  task_id : Option Nat
  deriving Repr, DecidableEq

/-- Upload handler, from `upload_video` in src/app/api/video.py (lines
83-194): validate extension, then size, then emptiness; store the raw
object; create the Video row with status "pending"; submit the transcode
job to the queue. `kafka_ok` models whether `kafka_service.submit_transcode_task`
raises; when it raises the exception is caught and logged and `task_id`
is None. `new_id` is the id the database assigns, `object_name` the
generated raw object key, `task_id` the generated task id. The best-effort
ES upsert of the pending row is outside this state. -/
def upload_video (st : PipelineState) (user_id : Nat) (req : UploadRequest)
    (new_id : Nat) (object_name : String) (kafka_ok : Bool) (task_id : Nat) :
    Except String (PipelineState × UploadResponse) :=
  if !(allowed_formats.contains (file_ext req.filename)) then
    Except.error "unsupported file format"
  else if MAX_UPLOAD_SIZE < req.size then
    Except.error "file size exceeds limit"
  else if req.size == 0 then
    Except.error "file must not be empty"
  else
    let st1 := { st with raw_objects := object_name :: st.raw_objects }
    let video : Video :=
      { id := new_id
        author_id := user_id
        title := req.title
        description := req.description
        status := "pending"
        file_size := some req.size
        file_format := some (file_ext req.filename) }
    let st2 := { st1 with videos := video :: st1.videos }
    let st3 :=
      if kafka_ok then
        { st2 with queue := { task_id := task_id, video_id := video.id,
                              raw_file_path := object_name,
                              user_id := user_id } :: st2.queue }
      else st2
    Except.ok (st3, { video_id := video.id, object_name := object_name,
                      status := video.status,
                      task_id := if kafka_ok then some task_id else none })

/-! ## Transcode worker (src/app/tasks/video_transcode.py) -/

/-- Celery retry bound of `video_transcode_task`:
`retry_kwargs={'max_retries': 2}` (src/app/tasks/video_transcode.py line 27). -/
def max_retries : Nat := 2

/-- Environment of one transcode attempt: whether the download and ffmpeg
steps succeed, whether cover extraction succeeds (non-fatal), and the
outputs the attempt would upload. -/
structure JobEnv where
  download_ok : Bool
  transcode_ok : Bool
  cover_ok : Bool
  play_url : String
  cover_url : String
  output_size : Nat
  duration : Option Nat
  deriving Repr, DecidableEq

/-- Database write on worker success, from `update_video_metadata` inside
`video_transcode_task` (src/app/tasks/video_transcode.py lines 190-213):
sets play_url, cover_url (only when a cover was produced), status
"published", file_size and duration. No other column is written. -/
def update_video_metadata (v : Video) (play_url : String)
    (cover_url : Option String) (file_size : Nat) (duration : Option Nat) :
    Video :=
  { v with
    play_url := some play_url
    cover_url := match cover_url with
      | some c => some c
      | none => v.cover_url
    status := "published"
    file_size := some file_size
    duration := duration }

/-- One delivery of `video_transcode_task` (src/app/tasks/video_transcode.py
lines 27-268): download then transcode, raising on failure (the raised
exception leaves the Video row untouched); on success upload outputs and
update the row. Returns the task outcome and the Video row afterwards. -/
def video_transcode_attempt (env : JobEnv) (generate_cover : Bool)
    (v : Video) : Except String Video × Video :=
  if !env.download_ok then
    (Except.error "download of raw video failed", v)
  else if !env.transcode_ok then
    (Except.error "ffmpeg transcode failed", v)
  else
    let cover := if generate_cover && env.cover_ok then some env.cover_url else none
    let v2 := update_video_metadata v env.play_url cover env.output_size env.duration
    (Except.ok v2, v2)

/-- Celery autoretry loop: `n + 1` total deliveries (the initial one plus
`n` retries), each retry running only when the previous delivery raised;
after the bound is exhausted the final error stands and the job is not
delivered again. -/
def run_with_retries (attempt : Nat → Video → Except String Video × Video) :
    Nat → Video → Except String Video × Video
  | 0, v => attempt 0 v
  | n + 1, v =>
    match run_with_retries attempt n v with
    | (Except.ok r, v2) => (Except.ok r, v2)
    | (Except.error _, v2) => attempt (n + 1) v2

/-- Full `video_transcode_task` under the queue redelivery policy: the
attempt environments are indexed by delivery number and the retry bound is
`max_retries`. -/
def video_transcode_task (envs : Nat → JobEnv) (generate_cover : Bool)
    (v : Video) : Except String Video × Video :=
  run_with_retries (fun i => video_transcode_attempt (envs i) generate_cover)
    max_retries v

/-! ## Metadata update and delete endpoints (src/app/api/video.py) -/

/-- Status values accepted by the update endpoint
(src/app/api/video.py line 377). -/
def valid_statuses : List String :=
  ["pending", "processing", "published", "failed", "deleted"]

/-- Body of the update endpoint (src/app/schemas/request/video_request.py),
restricted to the fields `update_video` reads. -/
structure VideoUpdateRequest where
  title : Option String := none
  description : Option String := none
  status : Option String := none
  deriving Repr, DecidableEq

/-- Update handler, from `update_video` in src/app/api/video.py (lines
351-420): collect the non-null fields, reject a status outside
`valid_statuses`, reject an empty update, then apply the collected fields
to the row. -/
def update_video (v : Video) (req : VideoUpdateRequest) :
    Except String Video :=
  if req.status.isSome && !(valid_statuses.contains (req.status.getD "")) then
    Except.error "invalid status value"
  else if req.title.isNone && req.description.isNone && req.status.isNone then
    Except.error "no fields to update"
  else
    Except.ok { v with
      title := req.title.getD v.title
      description := match req.description with
        | some d => some d
        | none => v.description
      status := req.status.getD v.status }

/-- Soft delete, from `VideoCRUD.delete` (src/app/crud/video_crud.py lines
91-109), called by the delete endpoint: the row's status is set to
"deleted" and nothing else changes. -/
def delete_video (v : Video) : Video :=
  { v with status := "deleted" }

/-! ## Video CRUD read paths (src/app/crud/video_crud.py) -/

/-- Row filter built by `VideoCRUD.list_videos` and `VideoCRUD.count_videos`
(src/app/crud/video_crud.py lines 142-164 and 195-217): the status
condition (with the extra `play_url IS NOT NULL` condition when the status
filter is "published"), the author condition, and the `ILIKE` search
condition on title or description. Python truthiness makes an empty string
or a zero id skip the corresponding condition. -/
def video_matches (status : Option String) (author_id : Option Nat)
    (search : Option String) (v : Video) : Bool :=
  (match status with
    | none => true
    | some s =>
      if s == "" then true
      else (v.status == s) &&
        (if s == "published" then v.play_url.isSome else true)) &&
  (match author_id with
    | none => true
    | some a => if a == 0 then true else v.author_id == a) &&
  (match search with
    | none => true
    | some q =>
      if q == "" then true
      else contains_ci v.title q || contains_ci_opt v.description q)

/-- Descending order on `created_at`, the ordering of
`VideoCRUD.list_videos` (src/app/crud/video_crud.py line 167). -/
def created_desc (a b : Video) : Bool :=
  decide (b.created_at ≤ a.created_at)

/-- List read path, from `VideoCRUD.list_videos` (src/app/crud/video_crud.py
lines 111-172): filter, order by created_at descending, then offset/limit. -/
def list_videos (videos : List Video) (skip limit : Nat)
    (status : Option String) (author_id : Option Nat)
    (search : Option String) : List Video :=
  (((sort_by created_desc
      (videos.filter (video_matches status author_id search))).drop skip).take
    limit)

/-- Count read path, from `VideoCRUD.count_videos`
(src/app/crud/video_crud.py lines 174-220). -/
def count_videos (videos : List Video) (status : Option String)
    (author_id : Option Nat) (search : Option String) : Nat :=
  (videos.filter (video_matches status author_id search)).length

/-! ## Search index sync service (src/app/infra/elasticsearch/sync_service.py) -/

/-- Search document, the fields written by `video_to_es_document`
(src/app/infra/elasticsearch/sync_service.py lines 33-84); play_url and
cover_url are deliberately excluded. -/
structure EsDoc where
  id : Nat
  author_id : Nat
  author_name : String
  title : String
  description : String
  status : String
  publish_time : Int
  view_count : Nat
  favorite_count : Nat
  comment_count : Nat
  hot_score : ℚ
  duration : Nat
  deriving Repr, DecidableEq

/-- Document builder, from `video_to_es_document`
(src/app/infra/elasticsearch/sync_service.py lines 33-84): null columns
fall back to "" or 0, and hot_score is computed from the counters. -/
def video_to_es_document (v : Video) (author_name : Option String) : EsDoc :=
  { id := v.id
    author_id := v.author_id
    author_name := author_name.getD ""
    title := v.title
    description := v.description.getD ""
    status := if v.status == "" then "pending" else v.status
    publish_time := v.publish_time.getD 0
    view_count := v.view_count
    favorite_count := v.favorite_count
    comment_count := v.comment_count
    hot_score := calculate_hot_score v.view_count v.favorite_count v.comment_count
    duration := v.duration.getD 0 }

/-- Reply of the Elasticsearch bulk API as `bulk_sync_videos_to_es` reads
it: the global `errors` flag and the per-operation HTTP statuses. -/
structure BulkResponse where
  errors : Bool
  items : List Nat
  deriving Repr, DecidableEq

/-- Bulk sync, from `bulk_sync_videos_to_es`
(src/app/infra/elasticsearch/sync_service.py lines 185-263), with the ES
client available. `doc_raises` models which videos make
`video_to_es_document` raise (a malformed entry): such a video is counted
failed and produces no bulk operation. `bulk_api` models the one bulk round
trip; on a reply without the `errors` flag the code sets
`success_count = len(videos)`, on a reply with the flag it counts statuses
200/201 per item, and when the call itself raises it adds
`len(videos) - success_count` to the failures. -/
def bulk_sync_videos_to_es (doc_raises : Video → Bool)
    (bulk_api : List EsDoc → Except String BulkResponse)
    (videos : List Video) (authors : Nat → Option String) : Nat × Nat :=
  let failed0 := (videos.filter doc_raises).length
  let ops := (videos.filter (fun v => !(doc_raises v))).map
    (fun v => video_to_es_document v (authors v.author_id))
  if ops.isEmpty then (0, failed0)
  else
    match bulk_api ops with
    | Except.ok resp =>
      if resp.errors then
        ((resp.items.filter (fun s => s == 200 || s == 201)).length,
          failed0 + (resp.items.filter (fun s => !(s == 200 || s == 201))).length)
      else
        (videos.length, failed0)
    | Except.error _ => (0, failed0 + videos.length)

/-! ## Search query service (src/app/crud/search_crud.py) -/

/-- Search query parameters, from `SearchRequest`
(src/app/schemas/request/search_request.py). -/
structure SearchRequest where
  q : Option String := none
  author_id : Option Nat := none
  video_id : Option Nat := none
  sort : String := "relevance"
  start_time : Option Int := none
  end_time : Option Int := none
  page : Nat := 1
  page_size : Nat := 20
  deriving Repr, DecidableEq

/-- Per-item search result, from `SearchVideoResponse`
(src/app/schemas/response/search_response.py); highlight maps a field name
to its highlighted fragments. -/
structure SearchVideoResponse where
  id : Nat
  author_id : Nat
  author_name : Option String
  title : String
  description : Option String
  cover_url : Option String
  play_url : Option String
  view_count : Nat
  favorite_count : Nat
  comment_count : Nat
  publish_time : Option Int
  highlight : Option (List (String × List String))
  deriving Repr, DecidableEq

/-- Search reply envelope, from `SearchResponse`
(src/app/schemas/response/search_response.py). -/
structure SearchResponse where
  videos : List SearchVideoResponse
  total : Nat
  page : Nat
  page_size : Nat
  total_pages : Nat
  deriving Repr, DecidableEq

/-- Build one `SearchVideoResponse` from a Video row as both search paths do
(src/app/crud/search_crud.py lines 206-219 and 322-335). -/
def to_search_video (authors : Nat → Option String)
    (highlight : Option (List (String × List String))) (v : Video) :
    SearchVideoResponse :=
  { id := v.id
    author_id := v.author_id
    author_name := authors v.author_id
    title := v.title
    description := v.description
    cover_url := v.cover_url
    play_url := v.play_url
    view_count := v.view_count
    favorite_count := v.favorite_count
    comment_count := v.comment_count
    publish_time := v.publish_time
    highlight := highlight }

/-- Row filter of the fallback search, from `_fallback_db_search`
(src/app/crud/search_crud.py lines 258-283): status "published", then the
`ILIKE '%q%'` condition on title or description, then the author, exact-id
and publish-time range conditions (each skipped on a Python-falsy value;
SQL comparisons against a NULL publish_time are not true). -/
def fallback_matches (p : SearchRequest) (v : Video) : Bool :=
  (v.status == "published") &&
  (match p.q with
    | none => true
    | some q =>
      if q == "" then true
      else contains_ci v.title q || contains_ci_opt v.description q) &&
  (match p.author_id with
    | none => true
    | some a => if a == 0 then true else v.author_id == a) &&
  (match p.video_id with
    | none => true
    | some i => if i == 0 then true else v.id == i) &&
  (match p.start_time with
    | none => true
    | some t =>
      if t == 0 then true
      else match v.publish_time with
        | some pt => decide (t ≤ pt)
        | none => false) &&
  (match p.end_time with
    | none => true
    | some t =>
      if t == 0 then true
      else match v.publish_time with
        | some pt => decide (pt ≤ t)
        | none => false)

/-- Hot-sort proxy of the fallback search:
`view_count + favorite_count * 2` (src/app/crud/search_crud.py line 292). -/
def hot_proxy (v : Video) : Nat :=
  v.view_count + v.favorite_count * 2

/-- Descending order on the hot proxy. -/
def hot_desc (a b : Video) : Bool :=
  decide (hot_proxy b ≤ hot_proxy a)

/-- Descending order on publish_time, NULLs last as MySQL orders them. -/
def publish_time_desc (a b : Video) : Bool :=
  match a.publish_time, b.publish_time with
  | some pa, some pb => decide (pb ≤ pa)
  | some _, none => true
  | none, some _ => false
  | none, none => true

/-- Ordering of the fallback search (src/app/crud/search_crud.py lines
285-295): publish_time descending for "time", the hot proxy descending for
"hot", created_at descending otherwise. -/
def fallback_order (p : SearchRequest) : Video → Video → Bool :=
  if p.sort == "time" then publish_time_desc
  else if p.sort == "hot" then hot_desc
  else created_desc

/-- Count of the fallback search, from lines 301-313 of
src/app/crud/search_crud.py: only the status and keyword conditions are
re-applied for the total. -/
def fallback_count (db : List Video) (p : SearchRequest) : Nat :=
  (db.filter (fun v =>
    (v.status == "published") &&
    (match p.q with
      | none => true
      | some q =>
        if q == "" then true
        else contains_ci v.title q || contains_ci_opt v.description q))).length

/-- Fallback search, from `_fallback_db_search` (src/app/crud/search_crud.py
lines 239-356): filter the rows, order them, page them, and build the reply
with highlight = None on every item. -/
def fallback_db_search (db : List Video) (authors : Nat → Option String)
    (p : SearchRequest) : SearchResponse :=
  let skip := (p.page - 1) * p.page_size
  let rows := ((sort_by (fallback_order p)
    (db.filter (fallback_matches p))).drop skip).take p.page_size
  let total := fallback_count db p
  { videos := rows.map (to_search_video authors none)
    total := total
    page := p.page
    page_size := p.page_size
    total_pages := (total + p.page_size - 1) / p.page_size }

/-- One hit of the index reply: the stored id and the optional highlight. -/
structure EsHit where
  id : Nat
  highlight : Option (List (String × List String))
  deriving Repr, DecidableEq

/-- Index search reply as `search_videos` reads it: ordered hits plus the
total count. -/
structure EsSearchResult where
  hits : List EsHit
  total : Nat
  deriving Repr, DecidableEq

/-- Search entry point, from `search_videos` (src/app/crud/search_crud.py
lines 20-236). `es_result` is the outcome of the call to the index client
(an `error` covers both a client that cannot be obtained and a query call
that raises): on error the handler falls back to the database; on success
it takes the ordered ids, resolves them against the system of record, and
attaches the per-hit highlights. -/
def search_videos (es_result : Except String EsSearchResult)
    (db : List Video) (authors : Nat → Option String) (p : SearchRequest) :
    SearchResponse :=
  match es_result with
  | Except.error _ => fallback_db_search db authors p
  | Except.ok resp =>
    let video_ids := resp.hits.map EsHit.id
    if video_ids.isEmpty then
      { videos := [], total := 0, page := p.page,
        page_size := p.page_size, total_pages := 0 }
    else
      let ordered := video_ids.filterMap
        (fun vid => db.find? (fun v => v.id == vid))
      let hl := fun vid =>
        (resp.hits.find? (fun h => h.id == vid)).bind EsHit.highlight
      { videos := ordered.map (fun v => to_search_video authors (hl v.id) v)
        total := resp.total
        page := p.page
        page_size := p.page_size
        total_pages := (resp.total + p.page_size - 1) / p.page_size }

/-! ## The play_url/status invariant and concrete pipeline inputs -/

/-- The invariant of the specification: play_url is non-null exactly when
the status is "published". -/
def play_url_invariant (v : Video) : Bool :=
  v.play_url.isSome == (v.status == "published")

/-- Video row produced by a concrete valid upload (user 7 uploading
"a.mp4" of 100 bytes with title "t" and getting id 1). -/
def c1_pending : Video :=
  { id := 1, author_id := 7, title := "t", status := "pending",
    file_size := some 100, file_format := some "mp4" }

/-- Result of the metadata-update endpoint setting status "published" on
`c1_pending`. -/
def c1_after : Video := { c1_pending with status := "published" }

/-- Pipeline state after the concrete upload producing `c1_pending`. -/
def c1_state : PipelineState :=
  { raw_objects := ["user_7/o_a.mp4"], videos := [c1_pending],
    queue := [{ task_id := 10, video_id := 1,
                raw_file_path := "user_7/o_a.mp4", user_id := 7 }] }

/-- Response of the concrete upload producing `c1_pending`. -/
def c1_resp : UploadResponse :=
  { video_id := 1, object_name := "user_7/o_a.mp4", status := "pending",
    task_id := some 10 }

/-- Attempt environment in which the download step raises on every
delivery. -/
def failing_env : Nat → JobEnv := fun _ =>
  { download_ok := false, transcode_ok := false, cover_ok := false,
    play_url := "", cover_url := "", output_size := 0, duration := none }

/-- Concrete batch for the bulk sync: two videos, the first of which makes
document conversion raise. -/
def c8_videos : List Video :=
  [{ id := 1, author_id := 1, title := "a" },
   { id := 2, author_id := 1, title := "b" }]

/-- Document conversion raises exactly on the video with id 1. -/
def c8_doc_raises : Video → Bool := fun v => v.id == 1

/-- Bulk API reply for the remaining operation: indexed with status 201
and no error flag. -/
def c8_bulk_api : List EsDoc → Except String BulkResponse :=
  fun _ => Except.ok { errors := false, items := [201] }

/-- Concrete published rows for the search fallback witness. -/
def c9_v1 : Video :=
  { id := 1, author_id := 1, title := "Cat video", status := "published",
    play_url := some "u1", view_count := 5, favorite_count := 1 }

/-- Second concrete published row, hotter than `c9_v1`. -/
def c9_v2 : Video :=
  { id := 2, author_id := 2, title := "another CAT", status := "published",
    play_url := some "u2", view_count := 50, favorite_count := 3 }

/-- Concrete system of record for the search fallback witness. -/
def c9_db : List Video :=
  [c9_v1, c9_v2,
   { id := 3, author_id := 2, title := "dog", status := "published",
     play_url := some "u3" },
   { id := 4, author_id := 1, title := "cat pending", status := "pending" }]

/-- Concrete hot-sorted query for the term "cat". -/
def c9_req : SearchRequest := { q := some "cat", sort := "hot" }

/-- Concrete published row with a play_url, listable by the feed. -/
def c10_listed : Video :=
  { id := 1, author_id := 1, title := "t", status := "published",
    play_url := some "u" }

/-- Concrete row marked published but with no play_url. -/
def c10_unplayable : Video :=
  { id := 2, author_id := 1, title := "s", status := "published" }

/-- Helper: a Video row just created by a successful upload has status
"pending", no play_url and no publish_time. -/
theorem upload_ok_video_pending (st : PipelineState) (user_id : Nat)
    (req : UploadRequest) (new_id : Nat) (object_name : String) (k : Bool)
    (task_id : Nat) (st2 : PipelineState) (resp : UploadResponse) (v : Video)
    (h : upload_video st user_id req new_id object_name k task_id =
      Except.ok (st2, resp))
    (hv : st2.videos = v :: st.videos) :
    v.status = "pending" ∧ v.play_url = none ∧ v.publish_time = none := by
  unfold upload_video at h
  split at h
  · simp at h
  split at h
  · simp at h
  split at h
  · simp at h
  cases k with
  | false =>
    simp only [Bool.false_eq_true, if_false, Except.ok.injEq,
      Prod.mk.injEq] at h
    obtain ⟨hst, -⟩ := h
    subst hst
    simp only [List.cons.injEq] at hv
    obtain ⟨hv1, -⟩ := hv
    rw [← hv1]
    exact ⟨rfl, rfl, rfl⟩
  | true =>
    simp only [if_true, Except.ok.injEq, Prod.mk.injEq] at h
    obtain ⟨hst, -⟩ := h
    subst hst
    simp only [List.cons.injEq] at hv
    obtain ⟨hv1, -⟩ := hv
    rw [← hv1]
    exact ⟨rfl, rfl, rfl⟩

/-- C7: for all non-negative integer counts, `calculate_hot_score` computes
(view×0.5 + favorite×2.0 + comment×1.5)/1000, and in particular
`calculate_hot_score 1000 10 5 = 0.5275`. -/
theorem C7_hot_score_formula :
    (∀ v f c : ℕ, calculate_hot_score v f c =
      ((v : ℚ) * 0.5 + (f : ℚ) * 2.0 + (c : ℚ) * 1.5) / 1000) ∧
    calculate_hot_score 1000 10 5 = 0.5275 := by
  constructor
  · intro v f c
    rfl
  · norm_num [calculate_hot_score]

/-- C6: an upload whose payload is empty, exceeds the 500 MB maximum, or
whose filename extension is outside the allow-list is rejected by the
handler; no result state is produced, so no raw object is stored, no Video
record is created, and no TranscodeJob is enqueued. -/
theorem C6_invalid_upload_rejected (st : PipelineState) (user_id : Nat)
    (req : UploadRequest) (new_id : Nat) (object_name : String)
    (kafka_ok : Bool) (task_id : Nat)
    (h : req.size = 0 ∨ MAX_UPLOAD_SIZE < req.size ∨
      ¬ allowed_formats.contains (file_ext req.filename) = true) :
    (upload_video st user_id req new_id object_name kafka_ok task_id).isOk
      = false := by
  unfold upload_video
  split
  · rfl
  · split
    · rfl
    · split
      · rfl
      · rename_i hext hbig hzero
        exfalso
        rcases h with h0 | h1 | h2
        · exact hzero (by simp [h0])
        · exact hbig (by simp [h1])
        · simp at hext
          exact h2 (by simp [hext])

/-- Witness for C6 at a concrete empty upload. -/
theorem C6_invalid_upload_rejected_witness :
    (upload_video {} 7 { filename := "a.mp4", size := 0, title := "t" }
      1 "user_7/o_a.mp4" true 10).isOk = false :=
  C6_invalid_upload_rejected {} 7 _ 1 "user_7/o_a.mp4" true 10 (Or.inl rfl)

/-- C5: on a valid upload the Video record is created with status "pending"
and its id is returned; when the queue submission fails the error is not
propagated (the handler still returns ok), the record is kept, and the
queue is untouched; and every message ever placed on the queue references a
video id present in the resulting video table, so record creation precedes
queue submission. -/
theorem C5_record_creation_precedes_enqueue (st : PipelineState)
    (user_id : Nat) (req : UploadRequest) (new_id : Nat)
    (object_name : String) (kafka_ok : Bool) (task_id : Nat)
    (hext : allowed_formats.contains (file_ext req.filename) = true)
    (hsize : req.size ≤ MAX_UPLOAD_SIZE) (hpos : req.size ≠ 0) :
    ∃ st2 resp,
      upload_video st user_id req new_id object_name kafka_ok task_id =
        Except.ok (st2, resp) ∧
      resp.video_id = new_id ∧ resp.status = "pending" ∧
      (∃ v, st2.videos = v :: st.videos ∧ v.id = new_id ∧
        v.status = "pending" ∧ v.play_url = none) ∧
      (kafka_ok = false → st2.queue = st.queue ∧ resp.task_id = none) ∧
      (∀ m ∈ st2.queue, m ∈ st.queue ∨ m.video_id ∈ st2.videos.map Video.id) := by
  have hbig : ¬ MAX_UPLOAD_SIZE < req.size := not_lt.mpr hsize
  have hz : (req.size == 0) = false := by simp [hpos]
  have hmem : file_ext req.filename ∈ allowed_formats := by simpa using hext
  cases kafka_ok with
  | false =>
    refine ⟨{ st with
        raw_objects := object_name :: st.raw_objects,
        videos := { id := new_id, author_id := user_id, title := req.title,
                    description := req.description, status := "pending",
                    file_size := some req.size,
                    file_format := some (file_ext req.filename) } :: st.videos },
      { video_id := new_id, object_name := object_name, status := "pending",
        task_id := none },
      ?_, rfl, rfl, ⟨_, rfl, rfl, rfl, rfl⟩, fun _ => ⟨rfl, rfl⟩,
      fun m hm => Or.inl hm⟩
    simp [upload_video, hmem, hbig, hz]
  | true =>
    refine ⟨{ st with
        raw_objects := object_name :: st.raw_objects,
        videos := { id := new_id, author_id := user_id, title := req.title,
                    description := req.description, status := "pending",
                    file_size := some req.size,
                    file_format := some (file_ext req.filename) } :: st.videos,
        queue := { task_id := task_id, video_id := new_id,
                   raw_file_path := object_name,
                   user_id := user_id } :: st.queue },
      { video_id := new_id, object_name := object_name, status := "pending",
        task_id := some task_id },
      ?_, rfl, rfl, ⟨_, rfl, rfl, rfl, rfl⟩, fun h => Bool.noConfusion h, ?_⟩
    · simp [upload_video, hmem, hbig, hz]
    · intro m hm
      rcases List.mem_cons.mp hm with hm | hm
      · subst hm
        right
        simp
      · exact Or.inl hm

/-- Witness for C5 at a concrete valid upload with a failing queue. -/
theorem C5_record_creation_precedes_enqueue_witness :
    ∃ st2 resp,
      upload_video {} 7 { filename := "a.mp4", size := 100, title := "t" }
        1 "user_7/o_a.mp4" false 10 = Except.ok (st2, resp) ∧
      resp.video_id = 1 ∧ resp.status = "pending" ∧
      (∃ v, st2.videos = v :: ({} : PipelineState).videos ∧ v.id = 1 ∧
        v.status = "pending" ∧ v.play_url = none) ∧
      (false = false → st2.queue = ({} : PipelineState).queue ∧
        resp.task_id = none) ∧
      (∀ m ∈ st2.queue, m ∈ ({} : PipelineState).queue ∨
        m.video_id ∈ st2.videos.map Video.id) :=
  C5_record_creation_precedes_enqueue {} 7
    { filename := "a.mp4", size := 100, title := "t" } 1 "user_7/o_a.mp4"
    false 10 (by decide) (by decide) (by decide)

/-- C10: the CRUD read paths filtered by status "published" add the
condition that play_url is present: a row listed under that filter always
has a play_url, and a row with status "published" but no play_url does not
change the count. -/
theorem C10_published_reads_require_play_url :
    (∀ (videos : List Video) (skip limit : Nat) (author_id : Option Nat)
        (search : Option String) (v : Video),
        v ∈ list_videos videos skip limit (some "published") author_id search →
        v.status = "published" ∧ v.play_url.isSome = true) ∧
    (∀ (videos : List Video) (author_id : Option Nat)
        (search : Option String) (v : Video),
        v.status = "published" → v.play_url = none →
        count_videos (v :: videos) (some "published") author_id search =
          count_videos videos (some "published") author_id search) := by
  constructor
  · intro videos skip limit author_id search v hv
    have h1 : v ∈ sort_by created_desc (videos.filter
        (video_matches (some "published") author_id search)) :=
      List.mem_of_mem_drop (List.mem_of_mem_take hv)
    have h2 : v ∈ videos.filter
        (video_matches (some "published") author_id search) :=
      (List.perm_insertionSort (fun a b => created_desc a b = true) _).mem_iff.mp h1
    have h3 := (List.mem_filter.mp h2).2
    simp [video_matches] at h3
    exact h3.1.1
  · intro videos author_id search v hs hp
    simp [count_videos, video_matches, hs, hp]

/-- Witness for C10 at concrete rows. -/
theorem C10_published_reads_require_play_url_witness :
    (c10_listed.status = "published" ∧ c10_listed.play_url.isSome = true) ∧
    count_videos [c10_unplayable] (some "published") none none =
      count_videos [] (some "published") none none :=
  ⟨C10_published_reads_require_play_url.1 [c10_listed] 0 10 none none
      c10_listed (by decide),
    C10_published_reads_require_play_url.2 [] none none c10_unplayable
      rfl rfl⟩

/-- C1 counterexample: the state reached by a valid upload followed by a
metadata update that sets status "published" holds a video whose status is
"published" while play_url is null, so the claimed invariant fails at a
point reachable through the pipeline's operations. -/
theorem C1_counterexample_update_breaks_invariant :
    upload_video {} 7 { filename := "a.mp4", size := 100, title := "t" }
        1 "user_7/o_a.mp4" true 10 = Except.ok (c1_state, c1_resp) ∧
    c1_state.videos = [c1_pending] ∧
    update_video c1_pending { status := some "published" } =
      Except.ok c1_after ∧
    c1_after.status = "published" ∧ c1_after.play_url = none ∧
    play_url_invariant c1_after = false := by
  refine ⟨by decide, rfl, by decide, rfl, rfl, by decide⟩

/-- C1 amended: play_url is non-null iff status is "published" for the
record created by upload and for the record written by the worker's
publication step; the metadata-update endpoint and the delete operation do
not preserve the equivalence (update can mark a record "published" with
play_url still null, and delete keeps play_url while leaving
"published"). -/
theorem C1_amended_invariant :
    (∀ st user_id req new_id object_name k task_id st2 resp v,
        upload_video st user_id req new_id object_name k task_id =
          Except.ok (st2, resp) →
        st2.videos = v :: st.videos → play_url_invariant v = true) ∧
    (∀ v play_url cover_url file_size duration,
        play_url_invariant
          (update_video_metadata v play_url cover_url file_size duration) =
          true) ∧
    play_url_invariant c1_after = false ∧
    play_url_invariant
      (delete_video (update_video_metadata c1_pending "u" none 5 none)) =
      false := by
  refine ⟨?_, ?_, by decide, by decide⟩
  · intro st user_id req new_id object_name k task_id st2 resp v h hv
    obtain ⟨h1, h2, -⟩ :=
      upload_ok_video_pending st user_id req new_id object_name k task_id
        st2 resp v h hv
    simp [play_url_invariant, h1, h2]
  · intro v play_url cover_url file_size duration
    simp [play_url_invariant, update_video_metadata]

/-- Witness for the amended C1 at the concrete upload. -/
theorem C1_amended_invariant_witness : play_url_invariant c1_pending = true :=
  C1_amended_invariant.1 {} 7 { filename := "a.mp4", size := 100, title := "t" }
    1 "user_7/o_a.mp4" true 10 c1_state c1_resp c1_pending (by decide) rfl

/-- C2 counterexample: a video in status "pending" moves directly to
"published" through the metadata-update endpoint, with no worker run and
without passing through "processing". -/
theorem C2_counterexample_update_skips_processing :
    c1_pending.status = "pending" ∧
    update_video c1_pending { status := some "published" } =
      Except.ok c1_after ∧
    c1_after.status = "published" := by
  refine ⟨rfl, by decide, rfl⟩

/-- C2 amended: upload writes status "pending", a successful worker attempt
writes "published", delete writes "deleted", and the metadata-update
endpoint writes any requested status in the valid set regardless of the
current status (rejecting only statuses outside the set), so transitions
may skip "processing" and "published" is reachable without a worker run. -/
theorem C2_amended_transitions :
    (∀ st user_id req new_id object_name k task_id st2 resp v,
        upload_video st user_id req new_id object_name k task_id =
          Except.ok (st2, resp) →
        st2.videos = v :: st.videos → v.status = "pending") ∧
    (∀ env generate_cover v r v2,
        video_transcode_attempt env generate_cover v = (Except.ok r, v2) →
        v2.status = "published") ∧
    (∀ v, (delete_video v).status = "deleted") ∧
    (∀ (v : Video) (req : VideoUpdateRequest) s, req.status = some s →
        s ∉ valid_statuses →
        update_video v req = Except.error "invalid status value") ∧
    (∀ (v : Video) s, s ∈ valid_statuses →
        update_video v { status := some s } =
          Except.ok { v with status := s }) := by
  refine ⟨?_, ?_, fun v => rfl, ?_, ?_⟩
  · intro st user_id req new_id object_name k task_id st2 resp v h hv
    exact (upload_ok_video_pending st user_id req new_id object_name k
      task_id st2 resp v h hv).1
  · intro env generate_cover v r v2 h
    unfold video_transcode_attempt at h
    split at h
    · simp at h
    split at h
    · simp at h
    simp only [Prod.mk.injEq] at h
    rw [← h.2]
    rfl
  · intro v req s hs hnot
    simp [update_video, hs]
    exact hnot
  · intro v s hs
    simp [update_video]
    exact hs

/-- Witness for the amended C2: the update endpoint accepts the status
"failed" on a concrete pending record. -/
theorem C2_amended_transitions_witness :
    update_video c1_pending { status := some "failed" } =
      Except.ok { c1_pending with status := "failed" } :=
  C2_amended_transitions.2.2.2.2 c1_pending "failed" (by decide)

/-- C3: on a job whose download step raises on the initial delivery and on
both retries (the bound `max_retries = 2`), the task ends in error and the
Video row is untouched: its status stays "pending", never becoming
"failed", and play_url stays null. -/
theorem C3_exhausted_retries_leave_row_unchanged :
    video_transcode_task failing_env true c1_pending =
      (Except.error "download of raw video failed", c1_pending) ∧
    c1_pending.status = "pending" ∧ c1_pending.status ≠ "failed" ∧
    c1_pending.play_url = none := by
  refine ⟨by decide, rfl, by decide, rfl⟩

/-- C4: the worker's publication step writes status "published" but leaves
publish_time exactly as it was, and a record created by upload has
publish_time null, so publish_time is never assigned by the pipeline. -/
theorem C4_publish_time_never_assigned :
    (∀ v play_url cover_url file_size duration,
        (update_video_metadata v play_url cover_url file_size
          duration).status = "published" ∧
        (update_video_metadata v play_url cover_url file_size
          duration).publish_time = v.publish_time) ∧
    (∀ st user_id req new_id object_name k task_id st2 resp v,
        upload_video st user_id req new_id object_name k task_id =
          Except.ok (st2, resp) →
        st2.videos = v :: st.videos → v.publish_time = none) := by
  refine ⟨fun v play_url cover_url file_size duration => ⟨rfl, rfl⟩, ?_⟩
  intro st user_id req new_id object_name k task_id st2 resp v h hv
  exact (upload_ok_video_pending st user_id req new_id object_name k task_id
    st2 resp v h hv).2.2

/-- Witness for C4 at the concrete upload and a concrete publication. -/
theorem C4_publish_time_never_assigned_witness :
    c1_pending.publish_time = none ∧
    (update_video_metadata c1_pending "u" none 5 none).publish_time = none :=
  ⟨C4_publish_time_never_assigned.2 {} 7
      { filename := "a.mp4", size := 100, title := "t" } 1 "user_7/o_a.mp4"
      true 10 c1_state c1_resp c1_pending (by decide) rfl,
    (C4_publish_time_never_assigned.1 c1_pending "u" none 5 none).2⟩

/-- C8: on the concrete batch of two videos where the first makes document
conversion raise and the single remaining operation indexes successfully
with no error flag, the bulk sync reports success = 2 and failed = 1 — the
success count equals the whole batch size rather than the number of
applied upserts, so the reported counts are inaccurate. -/
theorem C8_bulk_counts_inaccurate :
    bulk_sync_videos_to_es c8_doc_raises c8_bulk_api c8_videos
      (fun _ => none) = (2, 1) := by
  decide

/-- Helper: the hot-proxy descending order is total. -/
theorem hot_desc_total (a b : Video) :
    hot_desc a b = true ∨ hot_desc b a = true := by
  simp only [hot_desc, decide_eq_true_eq]
  exact Nat.le_total (hot_proxy b) (hot_proxy a)

/-- Helper: the hot-proxy descending order is transitive. -/
theorem hot_desc_trans (a b c : Video) (hab : hot_desc a b = true)
    (hbc : hot_desc b c = true) : hot_desc a c = true := by
  simp only [hot_desc, decide_eq_true_eq] at hab hbc ⊢
  exact le_trans hbc hab

/-- C9: when the call to the index client raises, the search returns
exactly the fallback response, which has the same `SearchResponse` schema;
every returned item has highlight null; every returned item comes from a
published row of the system of record matching the term as a
case-insensitive substring of title or description; and under hot sorting
the items are ordered by descending view_count + 2 × favorite_count. -/
theorem C9_search_fallback (msg : String) (db : List Video)
    (authors : Nat → Option String) (p : SearchRequest) :
    search_videos (Except.error msg) db authors p =
      fallback_db_search db authors p ∧
    (∀ item ∈ (search_videos (Except.error msg) db authors p).videos,
        item.highlight = none) ∧
    (∀ item ∈ (search_videos (Except.error msg) db authors p).videos,
        ∃ v ∈ db, v.id = item.id ∧ v.status = "published" ∧
          ∀ q, p.q = some q → q ≠ "" →
            (contains_ci v.title q || contains_ci_opt v.description q) =
              true) ∧
    (p.sort = "hot" →
        (search_videos (Except.error msg) db authors p).videos.Pairwise
          (fun a b => b.view_count + 2 * b.favorite_count ≤
            a.view_count + 2 * a.favorite_count)) := by
  have he : search_videos (Except.error msg) db authors p =
      fallback_db_search db authors p := rfl
  refine ⟨he, ?_, ?_, ?_⟩
  · intro item hitem
    rw [he] at hitem
    simp only [fallback_db_search] at hitem
    obtain ⟨a, -, rfl⟩ := List.mem_map.mp hitem
    rfl
  · intro item hitem
    rw [he] at hitem
    simp only [fallback_db_search] at hitem
    obtain ⟨a, ha, rfl⟩ := List.mem_map.mp hitem
    have h1 : a ∈ sort_by (fallback_order p) (db.filter (fallback_matches p)) :=
      List.mem_of_mem_drop (List.mem_of_mem_take ha)
    have h2 : a ∈ db.filter (fallback_matches p) :=
      (List.perm_insertionSort (fun x y => fallback_order p x y = true)
        _).mem_iff.mp h1
    have h3 := List.mem_filter.mp h2
    have hm := h3.2
    simp only [fallback_matches, Bool.and_eq_true, beq_iff_eq] at hm
    refine ⟨a, h3.1, rfl, hm.1.1.1.1.1, ?_⟩
    intro q hq hqne
    have hqm := hm.1.1.1.1.2
    rw [hq] at hqm
    simp only [if_neg hqne] at hqm
    exact hqm
  · intro hsort
    rw [he]
    simp only [fallback_db_search]
    rw [List.pairwise_map]
    have hord : fallback_order p = hot_desc := by
      simp [fallback_order, hsort]
    rw [hord]
    have hsorted : List.Pairwise (fun a b => hot_desc a b = true)
        (sort_by hot_desc (db.filter (fallback_matches p))) := by
      haveI : IsTotal Video (fun a b => hot_desc a b = true) :=
        ⟨hot_desc_total⟩
      haveI : IsTrans Video (fun a b => hot_desc a b = true) :=
        ⟨hot_desc_trans⟩
      exact List.sorted_insertionSort _ _
    have hsub : (((sort_by hot_desc
        (db.filter (fallback_matches p))).drop
          ((p.page - 1) * p.page_size)).take p.page_size).Sublist
        (sort_by hot_desc (db.filter (fallback_matches p))) :=
      (List.take_sublist _ _).trans (List.drop_sublist _ _)
    refine List.Pairwise.imp ?_ (hsorted.sublist hsub)
    intro a b h
    simp only [hot_desc, hot_proxy, decide_eq_true_eq] at h
    simp only [to_search_video]
    omega

/-- Witness for C9 on a concrete store and a concrete hot-sorted query for
the term "cat" against a failing index client. -/
theorem C9_search_fallback_witness :
    ((to_search_video (fun _ => none) none c9_v2).highlight = none) ∧
    (search_videos (Except.error "connection refused") c9_db (fun _ => none)
        c9_req).videos.Pairwise
      (fun a b => b.view_count + 2 * b.favorite_count ≤
        a.view_count + 2 * a.favorite_count) :=
  ⟨(C9_search_fallback "connection refused" c9_db (fun _ => none)
      c9_req).2.1 (to_search_video (fun _ => none) none c9_v2) (by decide),
    (C9_search_fallback "connection refused" c9_db (fun _ => none)
      c9_req).2.2.2 rfl⟩

end Vida
